import Mathlib

/-!
Verification of the `sitewatch` website status checker
(`src/final_project/src/main.rs`), a concurrent health-checking engine:
a worker pool probes URLs over HTTP with timeout, retry and header
validation, a round runner collects one outcome per URL, and a periodic
scheduler aggregates per-URL statistics until a stop signal arrives.

The Rust code is shallowly embedded: durations are naturals counted in
milliseconds, the HTTP client (`ureq`) is an oracle mapping the attempt
index to a call result, machine integers (`u16`, `u32`, `u64`, `usize`)
are naturals (none of the verified paths can overflow), `f64` percentage
arithmetic is modelled exactly over the rationals, and the concurrent
round and the periodic loop are step relations over explicit states.
-/

namespace SiteWatch

/-- Decidable equality on `Except`, used so that concrete outcomes can
be compared by `decide`. -/
instance {ε α : Type} [DecidableEq ε] [DecidableEq α] : DecidableEq (Except ε α) := fun x y =>
  match x, y with
  | .ok a, .ok b => if h : a = b then isTrue (by rw [h]) else isFalse (by simp [h])
  | .error a, .error b => if h : a = b then isTrue (by rw [h]) else isFalse (by simp [h])
  | .ok _, .error _ => isFalse (by simp)
  | .error _, .ok _ => isFalse (by simp)

/-- Durations, counted in milliseconds (Rust `std::time::Duration`). -/
abbrev Millis := Nat

/-- Embedding of struct `WebsiteStatus` (main.rs lines 140-146):
the outcome of one probe.  `status` is Rust `Result<u16, String>`;
the wall-clock `timestamp` field carries no verified content and is
omitted. -/
structure WebsiteStatus where
  url : String
  status : Except String Nat
  response_time : Millis
deriving DecidableEq

/-- Embedding of struct `Stats` (main.rs lines 148-153): the per-URL
accumulator of the statistics aggregator. -/
structure Stats where
  samples : Nat
  ok : Nat
  total_response : Millis
deriving DecidableEq

/-- Embedding of `Stats::new` (main.rs line 156). -/
def Stats.new : Stats := ⟨0, 0, 0⟩

/-- Embedding of `Stats::record` (main.rs lines 157-161): always count
the sample, count a success only for a carried status code in
`200..=399`, and always add the response time. -/
def Stats.record (s : Stats) (w : WebsiteStatus) : Stats :=
  { samples := s.samples + 1
    ok := match w.status with
      | .ok code => if 200 ≤ code ∧ code ≤ 399 then s.ok + 1 else s.ok
      | .error _ => s.ok
    total_response := s.total_response + w.response_time }

/-- Embedding of `Stats::avg_ms` (main.rs lines 162-164): truncating
natural division of cumulative milliseconds by the sample count. -/
def Stats.avg_ms (s : Stats) : Nat :=
  if s.samples = 0 then 0 else s.total_response / s.samples

/-- Embedding of `Stats::uptime_pct` (main.rs lines 165-167).  The Rust
code computes `(ok as f64) * 100.0 / (samples as f64)`; the `f64`
arithmetic is modelled exactly over `ℚ`. -/
def Stats.uptime_pct (s : Stats) : ℚ :=
  if s.samples = 0 then 0 else (s.ok : ℚ) * 100 / (s.samples : ℚ)

/-- An HTTP response as seen through the `ureq` client: a status code
and a list of headers. -/
structure Response where
  status : Nat
  headers : List (String × String)
deriving DecidableEq

/-- Result of one `agent.get(url).call()` (the `ureq` client contract):
`success` is `Ok(resp)` (HTTP status below 400), `httpError` is
`Err(ureq::Error::Status(code, resp))` (status 400 and above), and
`transportError` is any other `Err` (connection refused, timeout, DNS
failure, ...). -/
inductive CallResult where
  | success (resp : Response)
  | httpError (code : Nat) (resp : Response)
  | transportError (msg : String)
deriving DecidableEq

/-- Whether a call result is a transport-level failure (the `Err(e)`
catch-all arm at main.rs line 276). -/
def CallResult.is_transport : CallResult → Bool
  | .transportError _ => true
  | _ => false

/-- The message of a transport-level failure. -/
def CallResult.transport_msg : CallResult → String
  | .transportError m => m
  | _ => ""

/-- One observed HTTP call: its result and how long the call took, in
milliseconds.  A network oracle `net : Nat → Attempt` gives the
behaviour of attempt number `i` (0-based). -/
structure Attempt where
  result : CallResult
  duration : Millis
deriving DecidableEq

/-- Parsing of a flag value, the embedding of Rust `str::parse::<uN>()`
on the numeric CLI flags: a non-empty all-digit string (an optional
leading sign, which no flag uses in practice, is elided).  Defined over
the character list so that concrete invocations reduce inside the
kernel. -/
def parse_nat (s : String) : Option Nat :=
  if s.data ≠ [] ∧ s.data.all Char.isDigit then
    some (s.data.foldl (fun n c => n * 10 + (c.toNat - 48)) 0)
  else none

/-- Embedding of Rust `str::starts_with(char)`. -/
def starts_with_char (s : String) (c : Char) : Bool :=
  match s.data with
  | [] => false
  | c0 :: _ => c0 == c

/-- Leading and trailing whitespace removal on a character list. -/
def trim_chars (l : List Char) : List Char :=
  ((l.dropWhile Char.isWhitespace).reverse.dropWhile Char.isWhitespace).reverse

/-- Embedding of Rust `str::trim`. -/
def trim_str (s : String) : String := ⟨trim_chars s.data⟩

/-- Splitting a character list at every occurrence of a separator. -/
def split_on_char (c : Char) : List Char → List (List Char)
  | [] => [[]]
  | ch :: rest =>
    let r := split_on_char c rest
    if ch = c then [] :: r
    else match r with
      | [] => [[ch]]
      | h :: t => (ch :: h) :: t

/-- Splitting a character list at the first occurrence of a separator,
the embedding of Rust `str::splitn(2, char)`: `none` when the
separator does not occur. -/
def split_first (c : Char) : List Char → Option (List Char × List Char)
  | [] => none
  | ch :: rest =>
    if ch = c then some ([], rest)
    else match split_first c rest with
      | none => none
      | some (a, b) => some (ch :: a, b)

/-- ASCII-case-insensitive string equality, as used by `ureq` for
header names. -/
def eq_ci (a b : String) : Bool := a.data.map Char.toLower == b.data.map Char.toLower

/-- Embedding of `ureq`'s `resp.header(k)`: case-insensitive lookup of
the first header with the given name. -/
def Response.header (r : Response) (name : String) : Option String :=
  (r.headers.find? (fun p => eq_ci p.fst name)).map Prod.snd

/-- Embedding of the header-validation loop inside
`check_once_with_retries` (main.rs lines 238-258): walk the required
`(name, expected)` pairs in order; the first absent or unequal header
yields `some reason` and short-circuits; `none` means all checks pass. -/
def validate_headers (resp : Response) : List (String × String) → Option String
  | [] => none
  | (k, expected) :: rest =>
    match resp.header k with
    | some v =>
      if v = expected then validate_headers resp rest
      else some ("header " ++ k ++ " mismatch: got \x27" ++ v ++ "\x27, expected \x27"
                  ++ expected ++ "\x27")
    | none => some ("missing header " ++ k)

/-- The full observable behaviour of one `check_once_with_retries`
invocation: the returned `WebsiteStatus`, the number of HTTP calls
made, and the list of backoff sleeps performed (in milliseconds). -/
structure ProbeTrace where
  outcome : WebsiteStatus
  attempts : Nat
  sleeps : List Millis
deriving DecidableEq

/-- Embedding of the `loop` body of `check_once_with_retries`
(main.rs lines 231-290).  `remaining` is `retries - iter` (the loop
exits the transport arm when `attempt > retries`), `iter` is the
0-based index of the current attempt, `elapsed_all` accumulates
`start_all.elapsed()` (call durations plus backoff sleeps so far),
and `sleeps` records the backoffs performed. -/
def check_loop (net : Nat → Attempt) (url : String)
    (header_checks : List (String × String)) :
    Nat → Nat → Millis → List Millis → ProbeTrace
  | remaining, iter, elapsed_all, sleeps =>
    let a := net iter
    match a.result with
    | .success resp =>
      match validate_headers resp header_checks with
      | some reason => ⟨⟨url, .error reason, a.duration⟩, iter + 1, sleeps⟩
      | none => ⟨⟨url, .ok resp.status, a.duration⟩, iter + 1, sleeps⟩
    | .httpError code _ => ⟨⟨url, .ok code, a.duration⟩, iter + 1, sleeps⟩
    | .transportError msg =>
      match remaining with
      | 0 =>
        ⟨⟨url, .error ("transport error: " ++ msg), elapsed_all + a.duration⟩,
          iter + 1, sleeps⟩
      | r + 1 =>
        check_loop net url header_checks r (iter + 1) (elapsed_all + a.duration + 200)
          (sleeps ++ [200])

/-- Embedding of `check_once_with_retries` (main.rs lines 222-291):
attempt counter starts at 0, the overall clock starts now. -/
def check_once_with_retries (net : Nat → Attempt) (url : String) (retries : Nat)
    (header_checks : List (String × String)) : ProbeTrace :=
  check_loop net url header_checks retries 0 0 []

/-- State of one round of `run_once` (main.rs lines 294-333): the URLs
still in the job channel (FIFO), the URLs currently held by workers,
and the outcomes already sent to the result channel, in arrival
order. -/
structure RoundState where
  queue : List String
  inFlight : List String
  results : List WebsiteStatus

/-- One scheduling step of `run_once`, abstracting the worker pool:
`dispatch` is a worker receiving the next job from the FIFO job channel
(main.rs lines 203-206), `complete` is any in-flight worker finishing
`check_once_with_retries` and sending its outcome to the result channel
(main.rs lines 208-211).  Workers finish in any order, so `complete`
removes from anywhere in `inFlight`.  The shutdown flag of `run_once`
is created fresh inside the function and is only set after all results
are collected (main.rs lines 297, 329), so it never removes a step
here. -/
inductive RoundStep (probe : String → WebsiteStatus) : RoundState → RoundState → Prop
  | dispatch (u : String) (rest fl : List String) (res : List WebsiteStatus) :
      RoundStep probe ⟨u :: rest, fl, res⟩ ⟨rest, fl ++ [u], res⟩
  | complete (q fl₁ fl₂ : List String) (u : String) (res : List WebsiteStatus) :
      RoundStep probe ⟨q, fl₁ ++ u :: fl₂, res⟩ ⟨q, fl₁ ++ fl₂, res ++ [probe u]⟩

/-- Reflexive-transitive closure of `RoundStep`. -/
inductive RoundReach (probe : String → WebsiteStatus) : RoundState → RoundState → Prop
  | refl (s : RoundState) : RoundReach probe s s
  | tail {s t u : RoundState} :
      RoundReach probe s t → RoundStep probe t u → RoundReach probe s u

/-- Embedding of the per-line URL extraction in the `--file` arm of
`parse_args` (main.rs lines 105-110): split the contents into lines,
trim each line, drop blanks and `#` comment lines.  (Rust `lines()`
also strips a trailing carriage return, which trimming covers, and
omits a final empty line, which the blank-line filter covers.) -/
def file_urls (content : String) : List String :=
  (((split_on_char (Char.ofNat 10) content.data).map
      (fun l => (⟨trim_chars l⟩ : String))).filter
    (fun u => !(u == "") && !(starts_with_char u (Char.ofNat 35))))

/-- Embedding of struct `Config` (main.rs lines 51-59). -/
structure Config where
  workers : Nat
  timeout_ms : Millis
  retries : Nat
  period_secs : Nat
  header_checks : List (String × String)
  urls : List String
deriving DecidableEq

/-- Embedding of `Config::default` (main.rs lines 61-72). -/
def Config.default : Config :=
  { workers := 50, timeout_ms := 5000, retries := 0, period_secs := 0
    header_checks := [], urls := [] }

/-- Embedding of `parse_header_kv` (main.rs lines 131-137): split at the
first `=`, trim both parts, reject an empty key; a missing `=` leaves
`splitn` with a single piece and the second `next()` fails. -/
def parse_header_kv (s : String) : Except String (String × String) :=
  match split_first (Char.ofNat 61) s.data with
  | none => .error "missing value"
  | some (k0, v0) =>
    let k := (⟨trim_chars k0⟩ : String)
    let v := (⟨trim_chars v0⟩ : String)
    if k = "" then .error "empty key" else .ok (k, v)

/-- Embedding of the argument loop of `parse_args` (main.rs lines
78-120).  `fsys` models `fs::read_to_string`: the contents of each
readable path.  Rust `parse::<uN>()` on the flag values is modelled by
`String.toNat?` (machine integers as naturals). -/
def parse_args_loop (fsys : String → Option String) :
    List String → Config → Except String Config
  | [], cfg => .ok cfg
  | arg :: rest, cfg =>
    if arg = "--workers" then
      match rest with
      | [] => .error "--workers requires a value"
      | n :: rest2 =>
        match parse_nat n with
        | some w => parse_args_loop fsys rest2 { cfg with workers := w }
        | none => .error "invalid --workers value"
    else if arg = "--timeout-ms" then
      match rest with
      | [] => .error "--timeout-ms requires a value"
      | n :: rest2 =>
        match parse_nat n with
        | some ms => parse_args_loop fsys rest2 { cfg with timeout_ms := ms }
        | none => .error "invalid --timeout-ms value"
    else if arg = "--retries" then
      match rest with
      | [] => .error "--retries requires a value"
      | n :: rest2 =>
        match parse_nat n with
        | some r => parse_args_loop fsys rest2 { cfg with retries := r }
        | none => .error "invalid --retries value"
    else if arg = "--period" then
      match rest with
      | [] => .error "--period requires seconds"
      | n :: rest2 =>
        match parse_nat n with
        | some p => parse_args_loop fsys rest2 { cfg with period_secs := p }
        | none => .error "invalid --period value"
    else if arg = "--header" then
      match rest with
      | [] => .error "--header requires KEY=VALUE"
      | kv :: rest2 =>
        match parse_header_kv kv with
        | .ok p =>
          parse_args_loop fsys rest2 { cfg with header_checks := cfg.header_checks ++ [p] }
        | .error e => .error ("--header: " ++ e)
    else if arg = "--file" then
      match rest with
      | [] => .error "--file requires a path"
      | path :: rest2 =>
        match fsys path with
        | some content =>
          parse_args_loop fsys rest2 { cfg with urls := cfg.urls ++ file_urls content }
        | none => .error ("failed to read " ++ path)
    else if starts_with_char arg (Char.ofNat 45) then .error ("unknown flag: " ++ arg)
    else parse_args_loop fsys rest { cfg with urls := cfg.urls ++ [arg] }

/-- Embedding of `parse_args` (main.rs lines 74-129): run the argument
loop from the default config, reject an empty URL list, then clamp the
worker count with `workers.max(1).min(urls.len().max(1))`
(main.rs line 127). -/
def parse_args (fsys : String → Option String) (args : List String) :
    Except String Config :=
  match parse_args_loop fsys args Config.default with
  | .error e => .error e
  | .ok cfg =>
    if cfg.urls = [] then .error "no URLs provided. Pass them as args or with --file path"
    else .ok { cfg with workers := min (max cfg.workers 1) (max cfg.urls.length 1) }

/-- What `main` (main.rs lines 412-438) does with the parse result:
on `Ok(cfg)` it runs the checker (`run_once` or `run_periodic`), on
`Err(e)` it only prints the error and the usage text — no round starts
and no probe is executed. -/
inductive MainResult where
  | ran (cfg : Config)
  | configError (msg : String)
deriving DecidableEq

/-- Embedding of `main` (main.rs lines 412-438) at the level of the
configuration boundary: probes run only in the `Ok` branch. -/
def main_model (fsys : String → Option String) (args : List String) : MainResult :=
  match parse_args fsys args with
  | .ok cfg => .ran cfg
  | .error e => .configError e

/-- Control location of the `run_periodic` loop (main.rs lines
382-398): about to test the outer `while !shutdown` condition, running
one round (which also records it into the aggregate), sleeping with
`elapsed` milliseconds of the period already slept, or stopped. -/
inductive Phase where
  | checkStop
  | running
  | sleeping (elapsed : Millis)
  | stopped
deriving DecidableEq

/-- State of the periodic scheduler: the control location, how many
rounds were started, and how many rounds were completed and recorded
into the aggregate. -/
structure SchedState where
  phase : Phase
  started : Nat
  rounds : Nat
deriving DecidableEq

/-- One step of `run_periodic` (main.rs lines 382-398), driven by the
current value `sd` of the shared shutdown flag (set once by the stdin
watcher, never reset).  From `running`, the step completes the round
and records its results into the aggregate regardless of `sd`: the
round in flight uses a fresh flag internal to `run_once` and the code
reaches the `agg` recording loop before any shutdown check.  In the
sleep loop the code first tests `start.elapsed() < period`, then the
flag (breaking out of both loops, since the flag is monotone), then
sleeps 100 ms. -/
def sched_step (period : Millis) (sd : Bool) (s : SchedState) : SchedState :=
  match s.phase with
  | .checkStop =>
    if sd then { s with phase := .stopped }
    else { s with phase := .running, started := s.started + 1 }
  | .running => { s with phase := .sleeping 0, rounds := s.rounds + 1 }
  | .sleeping t =>
    if period ≤ t then { s with phase := .checkStop }
    else if sd then { s with phase := .stopped }
    else { s with phase := .sleeping (t + 100) }
  | .stopped => s

/-- The periodic scheduler run against a flag trace `sds` (the value of
the shutdown flag observed at each step), starting at the outer loop
condition with nothing started. -/
def sched_run (period : Millis) (sds : Nat → Bool) : Nat → SchedState
  | 0 => ⟨.checkStop, 0, 0⟩
  | n + 1 => sched_step period (sds n) (sched_run period sds n)
/-! Helper lemmas about the probe executor. -/

/-- Every branch of the probe loop returns an outcome for the probed
URL. -/
theorem check_loop_url (net : Nat → Attempt) (url : String)
    (checks : List (String × String)) :
    ∀ remaining iter e sl,
      (check_loop net url checks remaining iter e sl).outcome.url = url := by
  intro remaining
  induction remaining with
  | zero =>
    intro iter e sl
    unfold check_loop
    rcases h : (net iter).result with resp | ⟨code, resp⟩ | msg <;> simp [h]
    rcases hv : validate_headers resp checks with _ | reason <;> simp [hv]
  | succ r ih =>
    intro iter e sl
    unfold check_loop
    rcases h : (net iter).result with resp | ⟨code, resp⟩ | msg <;> simp [h]
    · rcases hv : validate_headers resp checks with _ | reason <;> simp [hv]
    · exact ih (iter + 1) _ _

/-- Behaviour of the probe loop when every attempt up to the budget is
a transport failure: it performs all the attempts, sleeps 200 ms after
each failed attempt but the last, reports the last transport message,
and its recorded elapsed time is the sum of all call durations plus the
backoff sleeps. -/
theorem check_loop_transport (net : Nat → Attempt) (url : String)
    (checks : List (String × String)) :
    ∀ remaining iter e sl,
      (∀ i, iter ≤ i → i ≤ iter + remaining → (net i).result.is_transport = true) →
      (check_loop net url checks remaining iter e sl).outcome.status
          = .error ("transport error: " ++ (net (iter + remaining)).result.transport_msg)
        ∧ (check_loop net url checks remaining iter e sl).outcome.response_time
          = e + ((List.range (remaining + 1)).map (fun j => (net (iter + j)).duration)).sum
            + 200 * remaining
        ∧ (check_loop net url checks remaining iter e sl).attempts = iter + remaining + 1
        ∧ (check_loop net url checks remaining iter e sl).sleeps
          = sl ++ List.replicate remaining 200 := by
  intro remaining
  induction remaining with
  | zero =>
    intro iter e sl h
    have ht := h iter (Nat.le_refl _) (by omega)
    unfold check_loop
    rcases hr : (net iter).result with resp | ⟨code, resp⟩ | msg <;>
      simp [hr, CallResult.is_transport] at ht ⊢
    simp [CallResult.transport_msg, hr, List.range_succ]
  | succ r ih =>
    intro iter e sl h
    have ht := h iter (Nat.le_refl _) (by omega)
    unfold check_loop
    rcases hr : (net iter).result with resp | ⟨code, resp⟩ | msg <;>
      simp [hr, CallResult.is_transport] at ht ⊢
    obtain ⟨ih1, ih2, ih3, ih4⟩ := ih (iter + 1) (e + (net iter).duration + 200) (sl ++ [200])
      (fun i h1 h2 => h i (by omega) (by omega))
    have harg : iter + 1 + r = iter + (r + 1) := by omega
    have hfun : ((fun j => (net (iter + j)).duration) ∘ Nat.succ)
        = (fun j => (net (iter + 1 + j)).duration) := by
      funext j
      have hj : iter + (j + 1) = iter + 1 + j := by omega
      show (net (iter + (j + 1))).duration = (net (iter + 1 + j)).duration
      rw [hj]
    have hsum : ((List.range (r + 1 + 1)).map (fun j => (net (iter + j)).duration)).sum
        = (net iter).duration
          + ((List.range (r + 1)).map (fun j => (net (iter + 1 + j)).duration)).sum := by
      rw [List.range_succ_eq_map, List.map_cons, List.sum_cons, List.map_map, hfun]
      simp
    refine ⟨?_, ?_, ?_, ?_⟩
    · rw [ih1, harg]
    · rw [ih2, hsum]
      ring
    · rw [ih3]
      omega
    · rw [ih4, List.append_assoc, List.replicate_succ]
      rfl

/-- Behaviour of the probe loop when attempt `k` is the first attempt
that is not a transport failure (and `k` is within the budget): the
loop stops at attempt `k`, having slept once per failed attempt, and
records the duration of attempt `k` alone. -/
theorem check_loop_first_response (net : Nat → Attempt) (url : String)
    (checks : List (String × String)) :
    ∀ remaining iter e sl k, iter ≤ k → k ≤ iter + remaining →
      (∀ i, iter ≤ i → i < k → (net i).result.is_transport = true) →
      (net k).result.is_transport = false →
      (check_loop net url checks remaining iter e sl).outcome.response_time
          = (net k).duration
        ∧ (check_loop net url checks remaining iter e sl).attempts = k + 1
        ∧ (check_loop net url checks remaining iter e sl).sleeps
          = sl ++ List.replicate (k - iter) 200 := by
  intro remaining
  induction remaining with
  | zero =>
    intro iter e sl k h1 h2 _ hk
    have hik : k = iter := by omega
    subst hik
    unfold check_loop
    rcases hr : (net k).result with resp | ⟨code, resp⟩ | msg <;>
      simp [hr, CallResult.is_transport] at hk ⊢
    rcases hv : validate_headers resp checks with _ | reason <;> simp [hv]
  | succ r ih =>
    intro iter e sl k h1 h2 hpre hk
    rcases Nat.eq_or_lt_of_le h1 with heq | hlt
    · subst heq
      unfold check_loop
      rcases hr : (net iter).result with resp | ⟨code, resp⟩ | msg <;>
        simp [hr, CallResult.is_transport] at hk ⊢
      rcases hv : validate_headers resp checks with _ | reason <;> simp [hv]
    · have ht := hpre iter (Nat.le_refl _) hlt
      unfold check_loop
      rcases hr : (net iter).result with resp | ⟨code, resp⟩ | msg <;>
        simp [hr, CallResult.is_transport] at ht ⊢
      obtain ⟨iht, iha, ihs⟩ := ih (iter + 1) (e + (net iter).duration + 200) (sl ++ [200]) k
        (by omega) (by omega) (fun i ha hb => hpre i (by omega) hb) hk
      refine ⟨iht, iha, ?_⟩
      rw [ihs, List.append_assoc]
      have hki : k - iter = (k - (iter + 1)) + 1 := by omega
      rw [hki, List.replicate_succ]
      rfl

/-! Helper lemmas about the round model. -/

/-- Invariant of `run_once`: at every reachable state, the queued URLs,
the in-flight URLs and the URLs of the collected outcomes together are
a permutation of the submitted URLs. -/
theorem roundreach_perm (probe : String → WebsiteStatus)
    (hp : ∀ u, (probe u).url = u) (urls : List String) :
    ∀ s, RoundReach probe ⟨urls, [], []⟩ s →
      (s.queue ++ s.inFlight ++ s.results.map (fun w => w.url)).Perm urls := by
  intro s h
  induction h with
  | refl => simp
  | tail hreach hstep ih =>
    rcases hstep with ⟨u, rest, fl, res⟩ | ⟨q, fl₁, fl₂, u, res⟩
    · refine List.Perm.trans ?_ ih
      simp only [List.append_assoc, List.cons_append, List.nil_append, List.singleton_append]
      simpa using (@List.perm_middle String u (rest ++ fl)
        (List.map (fun w => w.url) res))
    · have hmap : List.map (fun w => w.url) (res ++ [probe u])
          = List.map (fun w => w.url) res ++ [u] := by simp [hp u]
      refine List.Perm.trans ?_ ih
      simp only [hmap, List.append_assoc, List.cons_append, List.singleton_append]
      refine List.Perm.append_left q ?_
      refine List.Perm.append_left fl₁ ?_
      simpa using (@List.perm_middle String u
        (fl₂ ++ List.map (fun w => w.url) res) [])

/-! Helper lemmas about the statistics aggregator. -/

/-- Recording two outcomes commutes: each field of `Stats` is updated
by a commutative operation. -/
theorem record_comm (s : Stats) (a b : WebsiteStatus) :
    (s.record a).record b = (s.record b).record a := by
  rcases a with ⟨ua, sa, ta⟩
  rcases b with ⟨ub, sb, tb⟩
  rcases sa with ra | ca <;> rcases sb with rb | cb <;>
    simp [Stats.record, Stats.mk.injEq] <;>
    first
      | exact Nat.add_right_comm _ _ _
      | omega
      | (constructor <;>
          first
            | trivial
            | exact Nat.add_right_comm _ _ _
            | (split_ifs <;> omega))

/-- Folding `Stats.record` over a list is invariant under permutation
of the list. -/
theorem record_foldl_perm (s : Stats) {l₁ l₂ : List WebsiteStatus} (h : l₁.Perm l₂) :
    l₁.foldl Stats.record s = l₂.foldl Stats.record s := by
  induction h generalizing s with
  | nil => rfl
  | cons x h ih => simp only [List.foldl_cons]; exact ih _
  | swap x y l => simp only [List.foldl_cons]; rw [record_comm]
  | trans h₁ h₂ ih₁ ih₂ => exact (ih₁ s).trans (ih₂ s)

/-! Helper lemmas about argument parsing. -/

/-- Unfolding of a successful `parse_args`: the loop succeeded, the URL
list is non-empty, and the returned config is the loop result with the
worker count clamped. -/
theorem parse_args_ok (fsys : String → Option String) (args : List String) (cfg : Config)
    (h : parse_args fsys args = .ok cfg) :
    ∃ cfg₀, parse_args_loop fsys args Config.default = .ok cfg₀ ∧
      cfg₀.urls ≠ [] ∧
      cfg = { cfg₀ with workers := min (max cfg₀.workers 1) (max cfg₀.urls.length 1) } := by
  unfold parse_args at h
  rcases hl : parse_args_loop fsys args Config.default with e | cfg₀ <;> rw [hl] at h
  · cases h
  · by_cases hu : cfg₀.urls = []
    · simp [hu] at h
    · simp [hu] at h
      exact ⟨cfg₀, rfl, hu, h.symm⟩

/-! Helper lemmas about the periodic scheduler. -/

/-- A running round always completes and is recorded, whatever the
value of the shutdown flag. -/
theorem sched_step_running (period : Millis) (sd : Bool) (s : SchedState)
    (h : s.phase = .running) :
    sched_step period sd s = { s with phase := .sleeping 0, rounds := s.rounds + 1 } := by
  unfold sched_step
  rw [h]

/-- One scheduler step preserves the started/recorded bookkeeping
invariant. -/
theorem sched_step_inv (period : Millis) (sd : Bool) (s : SchedState)
    (ih : s.started = s.rounds + (if s.phase = .running then 1 else 0)) :
    (sched_step period sd s).started
      = (sched_step period sd s).rounds
        + (if (sched_step period sd s).phase = .running then 1 else 0) := by
  unfold sched_step
  rcases hp : s.phase with _ | _ | t | _ <;> simp [hp] at ih ⊢ <;>
    first
      | omega
      | (split_ifs <;> simp_all)

/-- Invariant of the periodic scheduler: the number of started rounds
always equals the number of recorded rounds, except while a round is
running, when it exceeds it by one. -/
theorem sched_run_inv (period : Millis) (sds : Nat → Bool) :
    ∀ n, (sched_run period sds n).started
      = (sched_run period sds n).rounds
        + (if (sched_run period sds n).phase = .running then 1 else 0) := by
  intro n
  induction n with
  | zero => simp [sched_run]
  | succ n ih => exact sched_step_inv period (sds n) _ ih

/-! Claim theorems. -/

/-- Claim C5: for every Outcome recorded into a UrlStats accumulator,
`record` increments the sample count by 1 unconditionally, increments
the success count by 1 if and only if the Outcome carries a status code
in [200,399], and adds the elapsed duration to the cumulative latency
regardless of success or failure; the derived uptime percentage is
100 x success / sample and the average latency is cumulative / sample,
both 0 when the sample count is 0; outcomes of 10 ms and 30 ms average
20 ms, and 3 successes with 1 failure give 75.0 percent uptime. -/
theorem C5_stats_record_snapshot (s : Stats) (w : WebsiteStatus) :
    (s.record w).samples = s.samples + 1
    ∧ (s.record w).total_response = s.total_response + w.response_time
    ∧ ((s.record w).ok = s.ok + 1 ↔ ∃ c, w.status = Except.ok c ∧ 200 ≤ c ∧ c ≤ 399)
    ∧ ((¬ ∃ c, w.status = Except.ok c ∧ 200 ≤ c ∧ c ≤ 399) → (s.record w).ok = s.ok)
    ∧ (∀ t : Stats, t.samples = 0 → t.uptime_pct = 0 ∧ t.avg_ms = 0)
    ∧ (∀ t : Stats, t.samples ≠ 0 →
        t.uptime_pct = (t.ok : ℚ) * 100 / (t.samples : ℚ)
          ∧ t.avg_ms = t.total_response / t.samples)
    ∧ ((Stats.new.record ⟨"u", Except.ok 200, 10⟩).record ⟨"u", Except.ok 200, 30⟩).avg_ms = 20
    ∧ ((((Stats.new.record ⟨"a", Except.ok 200, 1⟩).record ⟨"b", Except.ok 301, 2⟩).record
          ⟨"c", Except.ok 399, 3⟩).record ⟨"d", Except.ok 500, 4⟩).uptime_pct = 75 := by
  refine ⟨rfl, rfl, ?_, ?_, ?_, ?_, by decide, ?_⟩
  · rcases hw : w.status with r | c
    · simp [Stats.record, hw]
    · simp only [Stats.record, hw]
      split_ifs with hc
      · exact iff_of_true rfl ⟨c, rfl, hc.1, hc.2⟩
      · refine iff_of_false (by omega) ?_
        rintro ⟨c2, hc2, h1, h2⟩
        injection hc2 with he
        subst he
        exact hc ⟨h1, h2⟩
  · intro hno
    rcases hw : w.status with r | c
    · simp [Stats.record, hw]
    · simp only [Stats.record, hw]
      split_ifs with hc
      · exact absurd ⟨c, hw, hc.1, hc.2⟩ hno
      · rfl
  · intro t ht
    simp [Stats.uptime_pct, Stats.avg_ms, ht]
  · intro t ht
    simp [Stats.uptime_pct, Stats.avg_ms, ht]
  · norm_num [Stats.new, Stats.record, Stats.uptime_pct]

/-- Witness for C5 at concrete inputs. -/
theorem C5_stats_record_snapshot_witness :
    (Stats.new.record ⟨"u", Except.ok 200, 10⟩).samples = Stats.new.samples + 1
    ∧ Stats.new.uptime_pct = 0
    ∧ Stats.new.avg_ms = 0
    ∧ (Stats.new.record ⟨"u", Except.error "boom", 10⟩).ok = Stats.new.ok :=
  ⟨(C5_stats_record_snapshot Stats.new ⟨"u", Except.ok 200, 10⟩).1,
   ((C5_stats_record_snapshot Stats.new ⟨"u", Except.ok 200, 10⟩).2.2.2.2.1
      Stats.new rfl).1,
   ((C5_stats_record_snapshot Stats.new ⟨"u", Except.ok 200, 10⟩).2.2.2.2.1
      Stats.new rfl).2,
   (C5_stats_record_snapshot Stats.new ⟨"u", Except.error "boom", 10⟩).2.2.2.1
     (by simp)⟩

/-- Claim C9: folding `Stats.record` over any sequence of Outcomes is
order-independent: recording a multiset of Outcomes in any order into
the same starting accumulator yields the same `Stats` (same sample
count, success count and cumulative latency). -/
theorem C9_record_fold_order_independent (s : Stats) (l₁ l₂ : List WebsiteStatus)
    (h : l₁.Perm l₂) :
    l₁.foldl Stats.record s = l₂.foldl Stats.record s :=
  record_foldl_perm s h

/-- Witness for C9 at a concrete transposed pair of outcomes. -/
theorem C9_record_fold_order_independent_witness :
    ([⟨"a", Except.ok 200, 10⟩, ⟨"b", Except.error "t", 30⟩] : List WebsiteStatus).Perm
        [⟨"b", Except.error "t", 30⟩, ⟨"a", Except.ok 200, 10⟩]
    ∧ ([⟨"a", Except.ok 200, 10⟩, ⟨"b", Except.error "t", 30⟩] : List WebsiteStatus).foldl
          Stats.record Stats.new
      = ([⟨"b", Except.error "t", 30⟩, ⟨"a", Except.ok 200, 10⟩] : List WebsiteStatus).foldl
          Stats.record Stats.new :=
  ⟨by decide,
   C9_record_fold_order_independent Stats.new _ _ (by decide)⟩

/-- Claim C10: the reported average latency is the truncating integer
division of cumulative milliseconds by the sample count, not an exact
rational or rounded average: latencies of 10 ms and 15 ms report an
average of 12 ms (while the exact average is 12.5 ms). -/
theorem C10_avg_truncating_division (s : Stats) (h : s.samples ≠ 0) :
    s.avg_ms = s.total_response / s.samples
    ∧ ((Stats.new.record ⟨"u", Except.ok 200, 10⟩).record ⟨"u", Except.ok 200, 15⟩).avg_ms = 12
    ∧ ((((Stats.new.record ⟨"u", Except.ok 200, 10⟩).record
          ⟨"u", Except.ok 200, 15⟩).avg_ms : ℚ) ≠ (10 + 15 : ℚ) / 2) := by
  refine ⟨by simp [Stats.avg_ms, h], by decide, ?_⟩
  norm_num [Stats.new, Stats.record, Stats.avg_ms]

/-- Witness for C10 at the concrete two-sample accumulator. -/
theorem C10_avg_truncating_division_witness :
    ((Stats.new.record ⟨"u", Except.ok 200, 10⟩).record ⟨"u", Except.ok 200, 15⟩).samples ≠ 0
    ∧ ((Stats.new.record ⟨"u", Except.ok 200, 10⟩).record ⟨"u", Except.ok 200, 15⟩).avg_ms
      = ((Stats.new.record ⟨"u", Except.ok 200, 10⟩).record
            ⟨"u", Except.ok 200, 15⟩).total_response
        / ((Stats.new.record ⟨"u", Except.ok 200, 10⟩).record
            ⟨"u", Except.ok 200, 15⟩).samples :=
  ⟨by decide, (C10_avg_truncating_division _ (by decide)).1⟩

/-- Claim C7: for every successfully parsed configuration, the
effective worker count equals min(configured workers, number of URLs)
floored at 1: it never exceeds the number of URLs and is always at
least 1. -/
theorem C7_worker_clamp (fsys : String → Option String) (args : List String) (cfg : Config)
    (h : parse_args fsys args = .ok cfg) :
    1 ≤ cfg.workers ∧ cfg.workers ≤ cfg.urls.length
    ∧ ∀ cfg₀, parse_args_loop fsys args Config.default = .ok cfg₀ →
        cfg.workers = max (min cfg₀.workers cfg.urls.length) 1 := by
  obtain ⟨cfg₀, hl, hne, hcfg⟩ := parse_args_ok fsys args cfg h
  have hw : cfg.workers = min (max cfg₀.workers 1) (max cfg₀.urls.length 1) := by rw [hcfg]
  have hu : cfg.urls = cfg₀.urls := by rw [hcfg]
  have hlen : 1 ≤ cfg₀.urls.length := by
    cases hul : cfg₀.urls with
    | nil => exact absurd hul hne
    | cons a l => simp [hul]
  refine ⟨by rw [hw]; omega, by rw [hw, hu]; omega, ?_⟩
  intro cfg₁ hl₁
  rw [hl] at hl₁
  injection hl₁ with he
  subst he
  rw [hw, hu]
  omega

/-- Witness for C7: one URL with the default worker count of 50 is
clamped to a single worker. -/
theorem C7_worker_clamp_witness :
    parse_args (fun _ => none) ["https://example.org"]
      = .ok { workers := 1, timeout_ms := 5000, retries := 0, period_secs := 0,
              header_checks := [], urls := ["https://example.org"] }
    ∧ 1 ≤ (1 : Nat) ∧ (1 : Nat) ≤ (["https://example.org"] : List String).length :=
  ⟨by decide,
   (C7_worker_clamp (fun _ => none) ["https://example.org"]
      ⟨1, 5000, 0, 0, [], ["https://example.org"]⟩ (by decide)).1,
   (C7_worker_clamp (fun _ => none) ["https://example.org"]
      ⟨1, 5000, 0, 0, [], ["https://example.org"]⟩ (by decide)).2.1⟩

/-- Claim C8: every configuration error — an empty URL list, an
unparsable flag value, or an unreadable URL file — is rejected during
argument parsing before any round starts: parsing returns an error,
`main` reports it to the caller, and no probe is ever executed (the
checker runs only in the `Ok` branch of `main`). -/
theorem C8_config_errors_rejected (fsys : String → Option String) (args : List String) :
    (∀ cfg, parse_args fsys args = .ok cfg → cfg.urls ≠ [])
    ∧ (∀ e, parse_args fsys args = .error e → main_model fsys args = .configError e)
    ∧ (∀ cfg, main_model fsys args = .ran cfg → parse_args fsys args = .ok cfg)
    ∧ parse_args fsys [] = .error "no URLs provided. Pass them as args or with --file path"
    ∧ (∀ v rest, parse_nat v = none →
        parse_args fsys ("--workers" :: v :: rest) = .error "invalid --workers value")
    ∧ (∀ path rest, fsys path = none →
        parse_args fsys ("--file" :: path :: rest) = .error ("failed to read " ++ path)) := by
  refine ⟨?_, ?_, ?_, rfl, ?_, ?_⟩
  · intro cfg hok
    obtain ⟨cfg₀, _, hne, hcfg⟩ := parse_args_ok fsys args cfg hok
    have hu : cfg.urls = cfg₀.urls := by rw [hcfg]
    rw [hu]
    exact hne
  · intro e he
    unfold main_model
    rw [he]
  · intro cfg h
    unfold main_model at h
    rcases hp : parse_args fsys args with e | c <;> rw [hp] at h
    · cases h
    · injection h with he
      rw [he]
  · intro v rest hv
    unfold parse_args parse_args_loop
    simp [hv]
  · intro path rest hpath
    unfold parse_args parse_args_loop
    simp [hpath]

/-- Witness for C8 at concrete erroneous invocations. -/
theorem C8_config_errors_rejected_witness :
    parse_args (fun _ => none) []
        = .error "no URLs provided. Pass them as args or with --file path"
    ∧ parse_args (fun _ => none) ["--workers", "abc", "https://a"]
        = .error "invalid --workers value"
    ∧ parse_args (fun _ => none) ["--file", "urls.txt"]
        = .error ("failed to read " ++ "urls.txt")
    ∧ main_model (fun _ => none) []
        = .configError "no URLs provided. Pass them as args or with --file path" :=
  ⟨(C8_config_errors_rejected (fun _ => none) []).2.2.2.1,
   (C8_config_errors_rejected (fun _ => none) ["--workers", "abc", "https://a"]).2.2.2.2.1
     "abc" ["https://a"] (by decide),
   (C8_config_errors_rejected (fun _ => none) ["--file", "urls.txt"]).2.2.2.2.2
     "urls.txt" [] rfl,
   (C8_config_errors_rejected (fun _ => none) []).2.1 _
     (C8_config_errors_rejected (fun _ => none) []).2.2.2.1⟩

/-- Claim C6: in periodic mode a started round is never preempted by
the shutdown flag — from the `running` phase the step completes the
round and records it whatever the flag value — and in every run the
started/recorded bookkeeping shows that a stopped scheduler has
recorded every round it started; when the stop flag is set during the
sleep phase (with period time still remaining), the very next 100 ms
poll leaves the loop rather than waiting out the full period. -/
theorem C6_periodic_no_preemption (period : Millis) (sds : Nat → Bool) :
    (∀ (sd : Bool) (s : SchedState), s.phase = .running →
      sched_step period sd s = { s with phase := .sleeping 0, rounds := s.rounds + 1 })
    ∧ (∀ n, (sched_run period sds n).started
        = (sched_run period sds n).rounds
          + (if (sched_run period sds n).phase = .running then 1 else 0))
    ∧ (∀ n, (sched_run period sds n).phase = .stopped →
        (sched_run period sds n).started = (sched_run period sds n).rounds)
    ∧ (∀ (s : SchedState) (t : Millis), s.phase = .sleeping t → t < period →
        (sched_step period true s).phase = .stopped) := by
  refine ⟨?_, sched_run_inv period sds, ?_, ?_⟩
  · intro sd s hs
    exact sched_step_running period sd s hs
  · intro n hstop
    have hinv := sched_run_inv period sds n
    rw [hstop] at hinv
    simpa using hinv
  · intro s t hs hlt
    unfold sched_step
    rw [hs]
    simp [Nat.not_le.mpr hlt]

/-- Witness for C6 at a concrete periodic run whose stop flag is
always set. -/
theorem C6_periodic_no_preemption_witness :
    ((⟨.running, 1, 0⟩ : SchedState).phase = .running
      ∧ sched_step 300 true ⟨.running, 1, 0⟩ = ⟨.sleeping 0, 1, 1⟩)
    ∧ ((sched_run 300 (fun _ => true) 1).phase = .stopped
      ∧ (sched_run 300 (fun _ => true) 1).started = (sched_run 300 (fun _ => true) 1).rounds)
    ∧ ((⟨.sleeping 0, 1, 1⟩ : SchedState).phase = .sleeping 0 ∧ (0 : Nat) < 300
      ∧ (sched_step 300 true ⟨.sleeping 0, 1, 1⟩).phase = .stopped) :=
  ⟨⟨rfl, (C6_periodic_no_preemption 300 (fun _ => true)).1 true ⟨.running, 1, 0⟩ rfl⟩,
   ⟨by decide,
    (C6_periodic_no_preemption 300 (fun _ => true)).2.2.1 1 (by decide)⟩,
   ⟨rfl, by decide,
    (C6_periodic_no_preemption 300 (fun _ => true)).2.2.2 ⟨.sleeping 0, 1, 1⟩ 0 rfl
      (by decide)⟩⟩

/-- Claim C2 counterexample: an HTTP 503 response (surfaced by `ureq`
as `Err(Error::Status(503, resp))`) that lacks the required
`Content-Type` header produces a success Outcome carrying 503 — header
validation is skipped entirely for 4xx/5xx responses, contradicting
the claim that an absent required header on any response yields the
failure Outcome "missing header Content-Type". -/
theorem C2_header_validation_counterexample :
    (check_once_with_retries (fun _ => ⟨.httpError 503 ⟨503, []⟩, 5⟩) "http://e" 0
        [("Content-Type", "text/plain")]).outcome.status = .ok 503
    ∧ (check_once_with_retries (fun _ => ⟨.httpError 503 ⟨503, []⟩, 5⟩) "http://e" 0
        [("Content-Type", "text/plain")]).outcome.status
      ≠ .error ("missing header Content-Type") := by
  refine ⟨rfl, ?_⟩
  intro h
  cases h

/-- Claim C2 as amended: header validation is performed only for
responses the HTTP client surfaces as non-error responses (status
below 400): there an absent required header yields the failure Outcome
"missing header <name>", a present-but-unequal value yields the
failure Outcome "header <name> mismatch: got \x27<actual>\x27,
expected \x27<expected>\x27", the first failing check short-circuits
the rest, and if all checks pass the Outcome is a success carrying the
numeric status code.  A response with a 4xx/5xx status instead yields
a success Outcome carrying that code immediately, with no header
validation; neither kind of response is retried. -/
theorem C2_header_validation_amended :
    (∀ resp : Response, validate_headers resp [] = none)
    ∧ (∀ (resp : Response) (k v : String) (rest : List (String × String)),
        resp.header k = none →
        validate_headers resp ((k, v) :: rest) = some ("missing header " ++ k))
    ∧ (∀ (resp : Response) (k v a : String) (rest : List (String × String)),
        resp.header k = some a → a ≠ v →
        validate_headers resp ((k, v) :: rest)
          = some ("header " ++ k ++ " mismatch: got \x27" ++ a ++ "\x27, expected \x27"
              ++ v ++ "\x27"))
    ∧ (∀ (resp : Response) (k v : String) (rest : List (String × String)),
        resp.header k = some v →
        validate_headers resp ((k, v) :: rest) = validate_headers resp rest)
    ∧ (∀ (net : Nat → Attempt) (url : String) (retries : Nat)
        (checks : List (String × String)) (resp : Response) (d : Millis) (reason : String),
        net 0 = ⟨.success resp, d⟩ → validate_headers resp checks = some reason →
        (check_once_with_retries net url retries checks).outcome = ⟨url, .error reason, d⟩
          ∧ (check_once_with_retries net url retries checks).attempts = 1)
    ∧ (∀ (net : Nat → Attempt) (url : String) (retries : Nat)
        (checks : List (String × String)) (resp : Response) (d : Millis),
        net 0 = ⟨.success resp, d⟩ → validate_headers resp checks = none →
        (check_once_with_retries net url retries checks).outcome
            = ⟨url, .ok resp.status, d⟩
          ∧ (check_once_with_retries net url retries checks).attempts = 1)
    ∧ (∀ (net : Nat → Attempt) (url : String) (retries : Nat)
        (checks : List (String × String)) (code : Nat) (resp : Response) (d : Millis),
        net 0 = ⟨.httpError code resp, d⟩ →
        (check_once_with_retries net url retries checks).outcome = ⟨url, .ok code, d⟩
          ∧ (check_once_with_retries net url retries checks).attempts = 1) := by
  refine ⟨fun resp => rfl, ?_, ?_, ?_, ?_, ?_, ?_⟩
  · intro resp k v rest hk
    simp [validate_headers, hk]
  · intro resp k v a rest hk hav
    simp [validate_headers, hk, hav]
  · intro resp k v rest hk
    simp [validate_headers, hk]
  · intro net url retries checks resp d reason hnet hval
    unfold check_once_with_retries
    rcases retries with _ | r <;> unfold check_loop <;> rw [hnet] <;>
      simp [hval]
  · intro net url retries checks resp d hnet hval
    unfold check_once_with_retries
    rcases retries with _ | r <;> unfold check_loop <;> rw [hnet] <;>
      simp [hval]
  · intro net url retries checks code resp d hnet
    unfold check_once_with_retries
    rcases retries with _ | r <;> unfold check_loop <;> rw [hnet] <;> simp

/-- Witness for the amended C2 at concrete responses: a missing header
fails, a mismatching header fails with both values named, a matching
header passes with the status code, and a 503 skips validation. -/
theorem C2_header_validation_amended_witness :
    validate_headers ⟨200, [("Server", "x")]⟩ [("Content-Type", "text/plain")]
        = some ("missing header " ++ "Content-Type")
    ∧ validate_headers ⟨200, [("Content-Type", "text/html")]⟩ [("Content-Type", "text/plain")]
        = some ("header " ++ "Content-Type" ++ " mismatch: got \x27" ++ "text/html"
            ++ "\x27, expected \x27" ++ "text/plain" ++ "\x27")
    ∧ (check_once_with_retries
          (fun _ => ⟨.success ⟨200, [("Content-Type", "text/plain")]⟩, 4⟩) "http://a" 1
          [("Content-Type", "text/plain")]).outcome
        = ⟨"http://a", .ok 200, 4⟩
    ∧ (check_once_with_retries (fun _ => ⟨.httpError 503 ⟨503, []⟩, 5⟩) "http://e" 1
          [("Content-Type", "text/plain")]).outcome
        = ⟨"http://e", .ok 503, 5⟩ :=
  ⟨(C2_header_validation_amended).2.1 ⟨200, [("Server", "x")]⟩ "Content-Type" "text/plain"
      [] (by decide),
   (C2_header_validation_amended).2.2.1 ⟨200, [("Content-Type", "text/html")]⟩
      "Content-Type" "text/plain" "text/html" [] (by decide) (by decide),
   ((C2_header_validation_amended).2.2.2.2.2.1
      (fun _ => ⟨.success ⟨200, [("Content-Type", "text/plain")]⟩, 4⟩) "http://a" 1
      [("Content-Type", "text/plain")] ⟨200, [("Content-Type", "text/plain")]⟩ 4
      rfl (by decide)).1,
   ((C2_header_validation_amended).2.2.2.2.2.2
      (fun _ => ⟨.httpError 503 ⟨503, []⟩, 5⟩) "http://e" 1
      [("Content-Type", "text/plain")] 503 ⟨503, []⟩ 5 rfl).1⟩

/-- Claim C3: when every attempt fails at the transport level, the
probe executor with retry budget `retries` makes exactly `retries + 1`
attempts, sleeping a fixed 200 ms between consecutive attempts, and
returns a failure Outcome whose reason begins with "transport error";
and transport failures are the only retried case — as soon as an
attempt is not a transport failure the executor stops at that attempt
with no further retries and no further sleeps. -/
theorem C3_transport_retry_budget (net : Nat → Attempt) (url : String) (retries : Nat)
    (checks : List (String × String)) :
    ((∀ i, i ≤ retries → (net i).result.is_transport = true) →
      (check_once_with_retries net url retries checks).attempts = retries + 1
        ∧ (check_once_with_retries net url retries checks).sleeps
          = List.replicate retries 200
        ∧ (check_once_with_retries net url retries checks).outcome.status
          = .error ("transport error: " ++ (net retries).result.transport_msg))
    ∧ (∀ k, k ≤ retries →
        (∀ i, i < k → (net i).result.is_transport = true) →
        (net k).result.is_transport = false →
        (check_once_with_retries net url retries checks).attempts = k + 1
          ∧ (check_once_with_retries net url retries checks).sleeps
            = List.replicate k 200) := by
  constructor
  · intro h
    obtain ⟨h1, h2, h3, h4⟩ := check_loop_transport net url checks retries 0 0 []
      (fun i hi1 hi2 => h i (by omega))
    refine ⟨by simpa using h3, by simpa using h4, by simpa using h1⟩
  · intro k hk hpre hres
    obtain ⟨h1, h2, h3⟩ := check_loop_first_response net url checks retries 0 0 [] k
      (Nat.zero_le _) (by omega) (fun i _ hi => hpre i hi) hres
    exact ⟨h2, by simpa using h3⟩

/-- Witness for C3: two straight connection failures with a budget of
one retry, and an immediate HTTP response with the same budget. -/
theorem C3_transport_retry_budget_witness :
    ((check_once_with_retries (fun _ => ⟨.transportError "refused", 7⟩) "http://a" 1
          []).attempts = 1 + 1
      ∧ (check_once_with_retries (fun _ => ⟨.transportError "refused", 7⟩) "http://a" 1
          []).sleeps = List.replicate 1 200
      ∧ (check_once_with_retries (fun _ => ⟨.transportError "refused", 7⟩) "http://a" 1
          []).outcome.status = .error ("transport error: " ++ "refused"))
    ∧ ((check_once_with_retries (fun _ => ⟨.httpError 503 ⟨503, []⟩, 5⟩) "http://b" 1
          []).attempts = 0 + 1
      ∧ (check_once_with_retries (fun _ => ⟨.httpError 503 ⟨503, []⟩, 5⟩) "http://b" 1
          []).sleeps = List.replicate 0 200) :=
  ⟨(C3_transport_retry_budget (fun _ => ⟨.transportError "refused", 7⟩) "http://a" 1 []).1
     (fun i _ => rfl),
   (C3_transport_retry_budget (fun _ => ⟨.httpError 503 ⟨503, []⟩, 5⟩) "http://b" 1 []).2
     0 (by decide) (fun i hi => absurd hi (Nat.not_lt_zero i)) rfl⟩

/-- Claim C4: the elapsed duration recorded on an Outcome is the
single-attempt duration whenever the first non-transport attempt
produced it (a success, an HTTP error status, or a header-validation
failure), and is the overall duration across all attempts — every call
duration plus every 200 ms backoff since the first attempt — when the
Outcome is a transport-exhausted failure. -/
theorem C4_elapsed_duration_semantics (net : Nat → Attempt) (url : String) (retries : Nat)
    (checks : List (String × String)) :
    (∀ k, k ≤ retries → (∀ i, i < k → (net i).result.is_transport = true) →
      (net k).result.is_transport = false →
      (check_once_with_retries net url retries checks).outcome.response_time
        = (net k).duration)
    ∧ ((∀ i, i ≤ retries → (net i).result.is_transport = true) →
      (check_once_with_retries net url retries checks).outcome.response_time
        = ((List.range (retries + 1)).map (fun j => (net j).duration)).sum
          + 200 * retries) := by
  constructor
  · intro k hk hpre hres
    obtain ⟨h1, h2, h3⟩ := check_loop_first_response net url checks retries 0 0 [] k
      (Nat.zero_le _) (by omega) (fun i _ hi => hpre i hi) hres
    exact h1
  · intro h
    obtain ⟨h1, h2, h3, h4⟩ := check_loop_transport net url checks retries 0 0 []
      (fun i hi1 hi2 => h i (by omega))
    simpa using h2

/-- Witness for C4: a success on the second attempt records only that
attempt's duration, while exhausting two transport failures records
the summed durations plus one backoff. -/
theorem C4_elapsed_duration_semantics_witness :
    ((check_once_with_retries
          (fun i => if i = 0 then ⟨.transportError "timeout", 50⟩
            else ⟨.success ⟨200, []⟩, 9⟩) "http://a" 1 []).outcome.response_time = 9)
    ∧ (check_once_with_retries (fun _ => ⟨.transportError "timeout", 50⟩) "http://a" 1
          []).outcome.response_time
        = ((List.range (1 + 1)).map
            (fun j => ((fun _ => (⟨.transportError "timeout", 50⟩ : Attempt)) j).duration)).sum
          + 200 * 1 :=
  ⟨(C4_elapsed_duration_semantics
      (fun i => if i = 0 then ⟨.transportError "timeout", 50⟩ else ⟨.success ⟨200, []⟩, 9⟩)
      "http://a" 1 []).1 1 (by decide)
      (fun i hi => by have h0 : i = 0 := by omega
                      subst h0
                      rfl) rfl,
   (C4_elapsed_duration_semantics (fun _ => ⟨.transportError "timeout", 50⟩)
      "http://a" 1 []).2 (fun i _ => rfl)⟩

/-- Claim C1: for every round of the Round Runner on a non-empty URL
list, every terminal execution of the round (job queue drained and no
worker still holding a job) returns exactly `urls.length` Outcomes
whose URLs are a permutation of the submitted URLs — every submitted
URL is represented exactly as often as it was submitted, none missing,
none duplicated, and no shorter batch is a terminal result. -/
theorem C1_round_exactly_one_outcome_per_url (net : String → Nat → Attempt)
    (retries : Nat) (checks : List (String × String)) (urls : List String)
    (res : List WebsiteStatus) (hne : urls ≠ [])
    (h : RoundReach (fun u => (check_once_with_retries (net u) u retries checks).outcome)
          ⟨urls, [], []⟩ ⟨[], [], res⟩) :
    res.length = urls.length
    ∧ (res.map (fun w => w.url)).Perm urls
    ∧ ∀ u, ((res.map (fun w => w.url)).count u = urls.count u) := by
  have hp : ∀ u,
      ((fun u => (check_once_with_retries (net u) u retries checks).outcome) u).url = u :=
    fun u => check_loop_url (net u) u checks retries 0 0 []
  have hinv := roundreach_perm _ hp urls _ h
  simp only [List.nil_append] at hinv
  refine ⟨?_, hinv, fun u => hinv.count_eq u⟩
  have := hinv.length_eq
  simpa using this

/-- Witness for C1: a concrete two-URL round, dispatched to two
workers and completed in submission order. -/
theorem C1_round_exactly_one_outcome_per_url_witness :
    (["http://a", "http://b"] : List String) ≠ []
    ∧ ([(⟨"http://a", Except.ok 404, 1⟩ : WebsiteStatus),
        ⟨"http://b", Except.ok 404, 1⟩] : List WebsiteStatus).length
      = (["http://a", "http://b"] : List String).length
    ∧ (([(⟨"http://a", Except.ok 404, 1⟩ : WebsiteStatus),
         ⟨"http://b", Except.ok 404, 1⟩] : List WebsiteStatus).map
          (fun w => w.url)).Perm ["http://a", "http://b"] :=
  have hreach : RoundReach
      (fun u => (check_once_with_retries
        ((fun _ _ => (⟨.httpError 404 ⟨404, []⟩, 1⟩ : Attempt)) u) u 0 []).outcome)
      ⟨["http://a", "http://b"], [], []⟩
      ⟨[], [], [⟨"http://a", Except.ok 404, 1⟩, ⟨"http://b", Except.ok 404, 1⟩]⟩ :=
    .tail (.tail (.tail (.tail (.refl _)
      (.dispatch "http://a" ["http://b"] [] []))
      (.dispatch "http://b" [] ["http://a"] []))
      (.complete [] [] ["http://b"] "http://a" []))
      (.complete [] [] [] "http://b" [⟨"http://a", Except.ok 404, 1⟩])
  have hall := C1_round_exactly_one_outcome_per_url
    (fun _ _ => ⟨.httpError 404 ⟨404, []⟩, 1⟩) 0 [] ["http://a", "http://b"]
    [⟨"http://a", Except.ok 404, 1⟩, ⟨"http://b", Except.ok 404, 1⟩]
    (by decide) hreach
  ⟨by decide, hall.1, hall.2.1⟩

end SiteWatch
